import Mathlib

/-!
# ip-sync: the reconciliation cycle of `main.go`

A shallow embedding of `main.go`: the configuration object `app`, the three
remote steps `getRecord`, `currentIP` and `updateDNSRecord`, the cycle `sync`
that composes them, and the start of `main` up to the ticker loop.

The HTTP stack, the network and the two remote services are not part of the
program.  They are an explicit environment `Env`: whether Go's request
constructor accepts a URL, and what each round trip answers.  Every function
returns, next to its Go result, the list of observable events it produced, in
program order, so that "how many update calls were issued" is a statement about
that list.
-/

set_option autoImplicit false

namespace IpSync

/-! ## Data model -/

/-- The `Cloudflare` group of `app` (main.go:19-24). -/
structure CloudflareGroup where
  ApiToken : String
  ZoneID : String
  Record : String
  RecordID : String
  deriving DecidableEq, Repr

/-- The configuration object `app` (main.go:18-29).  `Interval` is a
`time.Duration`, a signed count of nanoseconds. -/
structure app where
  Cloudflare : CloudflareGroup
  Interval : Int
  Debug : Bool
  deriving DecidableEq, Repr

/-- The errors of main.go, one constructor per `fmt.Errorf` format string.  The
three `sync` wrappers keep the wrapped error, as `%w` does. -/
inductive Err where
  /-- Message "create request: %w" (main.go:144, 167) -/
  | createRequest
  /-- Message "do request: %w" (main.go:153, 176) -/
  | doRequest
  /-- Message "unexpected status code: %d" (main.go:158, 181) -/
  | unexpectedStatus (code : Nat)
  /-- Message "decode response: %w" (main.go:120, 198) -/
  | decodeResponse
  /-- Message "api error: %v" with the decoded `errors` messages (main.go:202) -/
  | apiError (errors : List String)
  /-- Message "record not found" (main.go:211) -/
  | recordNotFound
  /-- Message "get ip: %w" (main.go:110) -/
  | getIP
  /-- Message "no ip address" (main.go:129) -/
  | noIPAddress
  /-- Message "get record: %w" (main.go:85) -/
  | getRecord (cause : Err)
  /-- Message "get current ip: %w" (main.go:93) -/
  | getCurrentIP (cause : Err)
  /-- Message "update record: %w" (main.go:99) -/
  | updateRecord (cause : Err)
  deriving DecidableEq, Repr

/-- The error classes the specification names (sections 4.1 and 7). -/
inductive ErrKind where
  | TransportError
  | ProviderError
  | RecordNotFound
  | NoAddressAvailable
  deriving DecidableEq, Repr

/-- The class of an error under the specification's taxonomy: network, request
and decoding failures are transport errors; an unsuccessful provider answer or
a bad status is a provider error.  A wrapped error has the class of its cause. -/
def Err.kind : Err → ErrKind
  | .createRequest => .TransportError
  | .doRequest => .TransportError
  | .unexpectedStatus _ => .ProviderError
  | .decodeResponse => .TransportError
  | .apiError _ => .ProviderError
  | .recordNotFound => .RecordNotFound
  | .getIP => .TransportError
  | .noIPAddress => .NoAddressAvailable
  | .getRecord e => e.kind
  | .getCurrentIP e => e.kind
  | .updateRecord e => e.kind

/-- The JSON object `updateDNSRecord` marshals (main.go:136-140). -/
structure RecordBody where
  type : String
  name : String
  content : String
  deriving DecidableEq, Repr

/-- An HTTP request handed to `client.Do`: method, URL, the two headers the
program sets, and the body. -/
structure Request where
  method : String
  url : String
  authorization : String
  contentType : String
  body : Option RecordBody
  deriving DecidableEq, Repr

/-- One element of `result` in the record-listing answer (main.go:189-194).
The Go field `Type` is written `Type_`. -/
structure RecordEntry where
  ID : String
  Name : String
  Type_ : String
  Content : String
  deriving DecidableEq, Repr

/-- The decoded record-listing answer (main.go:184-195); `Errors` holds the
`message` of each element of `errors`. -/
structure LookupResult where
  Success : Bool
  Errors : List String
  Result : List RecordEntry
  deriving DecidableEq, Repr

/-- The decoded discovery answer (main.go:114-117): two optional strings, a nil
pointer being `none`. -/
structure IPResponse where
  IPv4 : Option String
  IPv6 : Option String
  deriving DecidableEq, Repr

/-- What a round trip gives back: a transport failure, or a response with its
status code and its body as the JSON decoder reads it (`none` when decoding
fails). -/
inductive HttpOutcome (α : Type) where
  | transportError
  | response (status : Nat) (body : Option α)
  deriving DecidableEq, Repr

/-- Everything outside the program that a cycle consults. -/
structure Env where
  /-- Whether `http.NewRequestWithContext` returns a request for this method and URL -/
  newRequest : String → String → Bool
  /-- The answer of `client.Do` to a record-listing request -/
  doLookup : Request → HttpOutcome LookupResult
  /-- The answer of `http.Get url` -/
  httpGet : String → HttpOutcome IPResponse
  /-- The answer of `client.Do` to a record-update request; its body is never read -/
  doUpdate : Request → HttpOutcome Unit

/-- Observable effects, in program order. -/
inductive Event where
  /-- A request handed to `client.Do` -/
  | send (req : Request)
  /-- A call of `http.Get` -/
  | get (url : String)
  /-- The line "[INFO] update record %s: %s -> %s" (main.go:97) -/
  | logUpdate (record currentValue newIP : String)
  deriving DecidableEq, Repr

/-- The update calls of a trace: the requests sent with method PUT. -/
def updateCalls : List Event → List Request
  | [] => []
  | .send req :: rest => if req.method = "PUT" then req :: updateCalls rest else updateCalls rest
  | _ :: rest => updateCalls rest

/-- The discovery calls of a trace: the URLs fetched with `http.Get`. -/
def discoveryCalls : List Event → List String
  | [] => []
  | .get url :: rest => url :: discoveryCalls rest
  | _ :: rest => discoveryCalls rest

/-! ## The three remote steps -/

/-- The listing URL built at main.go:164. -/
def lookupURL (zoneID recordName : String) : String :=
  "https://api.cloudflare.com/client/v4/zones/" ++ zoneID ++ "/dns_records?name=" ++ recordName

/-- The record URL built at main.go:135. -/
def recordURL (zoneID recordID : String) : String :=
  "https://api.cloudflare.com/client/v4/zones/" ++ zoneID ++ "/dns_records/" ++ recordID

/-- The discovery URL of main.go:108. -/
def discoveryURL : String := "https://api.serhiy.io/v1/stats/ip"

/-- The loop of main.go:205-209: the first entry, in list order, whose name is
`recordName` and whose type is "A". -/
def findRecord (recordName : String) : List RecordEntry → Option RecordEntry
  | [] => none
  | record :: rest =>
    if record.Name = recordName ∧ record.Type_ = "A" then some record
    else findRecord recordName rest

/-- The request `getRecord` builds (main.go:164-171). -/
def lookupRequest (a : app) (recordName : String) : Request :=
  { method := "GET",
    url := lookupURL a.Cloudflare.ZoneID recordName,
    authorization := "Bearer " ++ a.Cloudflare.ApiToken,
    contentType := "application/json",
    body := none }

/-- `getRecord` (main.go:163-212): the id and content of the resolved record,
or an error, with the events produced. -/
def getRecord (env : Env) (a : app) (recordName : String) :
    Except Err (String × String) × List Event :=
  let req := lookupRequest a recordName
  if env.newRequest "GET" req.url then
    match env.doLookup req with
    | .transportError => (.error .doRequest, [.send req])
    | .response status body =>
      if status ≠ 200 then (.error (.unexpectedStatus status), [.send req])
      else
        match body with
        | none => (.error .decodeResponse, [.send req])
        | some result =>
          if !result.Success then (.error (.apiError result.Errors), [.send req])
          else
            match findRecord recordName result.Result with
            | some record => (.ok (record.ID, record.Content), [.send req])
            | none => (.error .recordNotFound, [.send req])
  else (.error .createRequest, [])

/-- `currentIP` (main.go:107-130).  The status code of the answer is not
looked at. -/
def currentIP (env : Env) : Except Err String × List Event :=
  match env.httpGet discoveryURL with
  | .transportError => (.error .getIP, [.get discoveryURL])
  | .response _ body =>
    match body with
    | none => (.error .decodeResponse, [.get discoveryURL])
    | some response =>
      match response.IPv4 with
      | some v4 => (.ok v4, [.get discoveryURL])
      | none =>
        match response.IPv6 with
        | some v6 => (.ok v6, [.get discoveryURL])
        | none => (.error .noIPAddress, [.get discoveryURL])

/-- The request `updateDNSRecord` builds (main.go:135-148). -/
def updateRequest (a : app) (newIP : String) : Request :=
  { method := "PUT",
    url := recordURL a.Cloudflare.ZoneID a.Cloudflare.RecordID,
    authorization := "Bearer " ++ a.Cloudflare.ApiToken,
    contentType := "application/json",
    body := some { type := "A", name := a.Cloudflare.Record, content := newIP } }

/-- `updateDNSRecord` (main.go:134-162). -/
def updateDNSRecord (env : Env) (a : app) (newIP : String) : Except Err Unit × List Event :=
  let req := updateRequest a newIP
  if env.newRequest "PUT" req.url then
    match env.doUpdate req with
    | .transportError => (.error .doRequest, [.send req])
    | .response status _ =>
      if status ≠ 200 then (.error (.unexpectedStatus status), [.send req])
      else (.ok (), [.send req])
  else (.error .createRequest, [])

/-! ## The cycle -/

/-- What one call of `sync` leaves behind: the configuration object (its cached
record id may have changed), the returned error (`none` for nil) and the
events. -/
structure SyncResult where
  app : app
  err : Option Err
  trace : List Event
  deriving DecidableEq, Repr

/-- The assignment of main.go:87-89: the cached record id becomes the id just
resolved. -/
def withRecordID (a : app) (recordID : String) : app :=
  if a.Cloudflare.RecordID ≠ recordID then
    { a with Cloudflare := { a.Cloudflare with RecordID := recordID } }
  else a

/-- `sync` (main.go:82-104). -/
def sync (env : Env) (a : app) : SyncResult :=
  match getRecord env a a.Cloudflare.Record with
  | (.error e, t1) => { app := a, err := some (.getRecord e), trace := t1 }
  | (.ok (recordID, currentValue), t1) =>
    let a1 := withRecordID a recordID
    match currentIP env with
    | (.error e, t2) => { app := a1, err := some (.getCurrentIP e), trace := t1 ++ t2 }
    | (.ok newIP, t2) =>
      if currentValue ≠ newIP then
        let line := Event.logUpdate a1.Cloudflare.Record currentValue newIP
        match updateDNSRecord env a1 newIP with
        | (.error e, t3) =>
          { app := a1, err := some (.updateRecord e), trace := t1 ++ t2 ++ [line] ++ t3 }
        | (.ok _, t3) => { app := a1, err := none, trace := t1 ++ t2 ++ [line] ++ t3 }
      else { app := a1, err := none, trace := t1 ++ t2 }

/-- The error `sync` returns for the outcome of `updateDNSRecord`. -/
def updateErr : Except Err Unit → Option Err
  | .error e => some (.updateRecord e)
  | .ok _ => none

/-! ## Startup -/

/-- The package variable `version` (main.go:31). -/
def version : String := "dev"

/-- How the modelled part of `main` ends: the process exits with a status, or
control reaches the ticker loop of main.go:63 with the configuration object as
the first cycle left it. -/
inductive MainOutcome where
  | exit (code : Nat)
  | loop (a : app)
  deriving DecidableEq, Repr

/-- What `main` has done when it exits or reaches the loop: the lines written
to standard output, and the result of the first cycle when one was run. -/
structure MainResult where
  outcome : MainOutcome
  stdout : List String
  firstSync : Option SyncResult
  deriving DecidableEq, Repr

/-- `main` (main.go:33-64) up to the ticker loop.  `parsed` is what the flag
parser returns: the configuration object, or its error text. -/
def main (env : Env) (parsed : Except String app) : MainResult :=
  match parsed with
  | .error e =>
    { outcome := .exit 1, stdout := [version, "error parse args: " ++ e], firstSync := none }
  | .ok application =>
    if application.Cloudflare.ApiToken = "" ∨ application.Cloudflare.ZoneID = "" ∨
        application.Cloudflare.Record = "" then
      { outcome := .exit 1,
        stdout := [version, "cloudflare api token, zone id and record name are required"],
        firstSync := none }
    else
      let r := sync env application
      match r.err with
      | some _ => { outcome := .exit 1, stdout := [version], firstSync := some r }
      | none => { outcome := .loop r.app, stdout := [version], firstSync := some r }

/-! ## A provider that stores the records

The remote provider seen as a store: the list of the zone's records.  The
listing endpoint answers with the records whose name is the one asked for, in
store order.  An update request that the provider answers with status 200 sets
the content of the record it addresses to the content sent; any other answer
leaves the store as it is.  Which update requests succeed is left open
(`putAnswer`). -/

/-- The store after the provider has carried out the update `req`. -/
def applyUpdate (zoneID : String) (store : List RecordEntry) (req : Request) : List RecordEntry :=
  match req.body with
  | none => store
  | some b =>
    store.map fun e => if recordURL zoneID e.ID = req.url then { e with Content := b.content } else e

/-- The environment a cycle runs in when the provider holds `store` and the
discovery service answers `discovery`. -/
def providerEnv (newRequest : String → String → Bool)
    (putAnswer : List RecordEntry → Request → HttpOutcome Unit)
    (zoneID : String) (store : List RecordEntry) (discovery : HttpOutcome IPResponse) : Env :=
  { newRequest := newRequest,
    doLookup := fun req =>
      .response 200 (some
        { Success := true, Errors := [],
          Result := store.filter fun e => lookupURL zoneID e.Name = req.url }),
    httpGet := fun _ => discovery,
    doUpdate := putAnswer store }

/-- The effect of one event on the store. -/
def providerStep (putAnswer : List RecordEntry → Request → HttpOutcome Unit)
    (zoneID : String) (store : List RecordEntry) : Event → List RecordEntry
  | .send req =>
    if req.method = "PUT" then
      match putAnswer store req with
      | .response status _ => if status = 200 then applyUpdate zoneID store req else store
      | .transportError => store
    else store
  | _ => store

/-- The store after the events of a trace, in order. -/
def storeAfter (putAnswer : List RecordEntry → Request → HttpOutcome Unit)
    (zoneID : String) (store : List RecordEntry) (trace : List Event) : List RecordEntry :=
  trace.foldl (providerStep putAnswer zoneID) store

/-- One cycle against the provider: the result of `sync` on the configuration
object and store of `st`, and the store afterwards. -/
def providerCycle (newRequest : String → String → Bool)
    (putAnswer : List RecordEntry → Request → HttpOutcome Unit)
    (discovery : HttpOutcome IPResponse) (st : app × List RecordEntry) :
    SyncResult × List RecordEntry :=
  let r := sync (providerEnv newRequest putAnswer st.1.Cloudflare.ZoneID st.2 discovery) st.1
  (r, storeAfter putAnswer st.1.Cloudflare.ZoneID st.2 r.trace)

/-- Go's `net/url` refuses a URL that holds an ASCII control byte (below 0x20,
or 0x7f), and `http.NewRequestWithContext` fails when the URL does not parse. -/
def hasCTLByte (url : String) : Bool :=
  url.toList.any fun c => decide (c.toNat < 32) || decide (c.toNat = 127)

/-! ## Concrete configurations and environments -/

/-- A configuration for the record "home.example.com" with nothing cached. -/
def homeApp : app :=
  { Cloudflare := { ApiToken := "token", ZoneID := "zone1", Record := "home.example.com",
                    RecordID := "" },
    Interval := 300000000000, Debug := false }

/-- An environment with fixed answers, in which the request constructor
refuses exactly the URLs that hold a control byte. -/
def fixedEnv (lookup : HttpOutcome LookupResult) (discovery : HttpOutcome IPResponse)
    (update : HttpOutcome Unit) : Env :=
  { newRequest := fun _ url => !hasCTLByte url,
    doLookup := fun _ => lookup,
    httpGet := fun _ => discovery,
    doUpdate := fun _ => update }

/-- A successful listing answer holding `entries`. -/
def listing (entries : List RecordEntry) : HttpOutcome LookupResult :=
  .response 200 (some { Success := true, Errors := [], Result := entries })

/-- A discovery answer holding an IPv4 address only. -/
def ipv4Only (ip : String) : HttpOutcome IPResponse :=
  .response 200 (some { IPv4 := some ip, IPv6 := none })

/-- The configuration `homeApp` with a record id cached by an earlier cycle. -/
def staleApp : app :=
  { homeApp with Cloudflare := { homeApp.Cloudflare with RecordID := "stale" } }

/-- A provider answer: every update request succeeds. -/
def alwaysOK : List RecordEntry → Request → HttpOutcome Unit :=
  fun _ _ => .response 200 none

/-! ## Lemmas

### Traces -/

theorem updateCalls_append (t u : List Event) :
    updateCalls (t ++ u) = updateCalls t ++ updateCalls u := by
  induction t with
  | nil => rfl
  | cons ev rest ih =>
    cases ev with
    | send req =>
      by_cases h : req.method = "PUT" <;> simp [updateCalls, h, ih]
    | get url => simpa [updateCalls] using ih
    | logUpdate r c n => simpa [updateCalls] using ih

theorem discoveryCalls_append (t u : List Event) :
    discoveryCalls (t ++ u) = discoveryCalls t ++ discoveryCalls u := by
  induction t with
  | nil => rfl
  | cons ev rest ih =>
    cases ev with
    | send req => simpa [discoveryCalls] using ih
    | get url => simp [discoveryCalls, ih]
    | logUpdate r c n => simpa [discoveryCalls] using ih

/-- A listing request is not an update call. -/
theorem updateCalls_lookupRequest (a : app) (recordName : String) :
    updateCalls [.send (lookupRequest a recordName)] = [] := by
  simp [updateCalls, lookupRequest]

/-- The events of `getRecord`: nothing when the request cannot be built, the
listing request otherwise. -/
theorem getRecord_trace (env : Env) (a : app) (recordName : String) :
    (getRecord env a recordName).2 =
      if env.newRequest "GET" (lookupURL a.Cloudflare.ZoneID recordName) then
        [.send (lookupRequest a recordName)]
      else [] := by
  unfold getRecord
  simp only [lookupRequest]
  split
  · split
    · rfl
    · split
      · rfl
      · split
        · rfl
        · split
          · rfl
          · split <;> rfl
  · rfl

theorem getRecord_updateCalls (env : Env) (a : app) (recordName : String) :
    updateCalls (getRecord env a recordName).2 = [] := by
  rw [getRecord_trace]
  split
  · exact updateCalls_lookupRequest a recordName
  · rfl

theorem getRecord_discoveryCalls (env : Env) (a : app) (recordName : String) :
    discoveryCalls (getRecord env a recordName).2 = [] := by
  rw [getRecord_trace]
  split <;> rfl

/-- The events of `currentIP`: one fetch of the discovery URL, whatever the
answer. -/
theorem currentIP_trace (env : Env) : (currentIP env).2 = [.get discoveryURL] := by
  unfold currentIP
  split
  · rfl
  · split
    · rfl
    · split
      · rfl
      · split <;> rfl

theorem currentIP_updateCalls (env : Env) : updateCalls (currentIP env).2 = [] := by
  rw [currentIP_trace]; rfl

/-- The events of `updateDNSRecord`: nothing when the request cannot be built,
the update request otherwise. -/
theorem updateDNSRecord_trace (env : Env) (a : app) (newIP : String) :
    (updateDNSRecord env a newIP).2 =
      if env.newRequest "PUT" (recordURL a.Cloudflare.ZoneID a.Cloudflare.RecordID) then
        [.send (updateRequest a newIP)]
      else [] := by
  unfold updateDNSRecord
  simp only [updateRequest]
  split
  · split
    · rfl
    · split <;> rfl
  · rfl

theorem updateCalls_updateRequest (a : app) (newIP : String) :
    updateCalls [.send (updateRequest a newIP)] = [updateRequest a newIP] := by
  simp [updateCalls, updateRequest]

/-- What `getRecord` returns on an answer with status 200 and `success` true. -/
theorem getRecord_of_success (env : Env) (a : app) (recordName : String) (result : LookupResult)
    (hreq : env.newRequest "GET" (lookupURL a.Cloudflare.ZoneID recordName) = true)
    (hresp : env.doLookup (lookupRequest a recordName) = .response 200 (some result))
    (hok : result.Success = true) :
    (getRecord env a recordName).1 =
      match findRecord recordName result.Result with
      | some record => .ok (record.ID, record.Content)
      | none => .error .recordNotFound := by
  unfold getRecord
  have hreq2 : env.newRequest "GET" (lookupRequest a recordName).url = true := hreq
  simp only [hreq2, hresp, hok, if_true]
  cases findRecord recordName result.Result <;> simp

/-- The result of the loop, when there is one, passes the loop's test and every
entry before it fails the test. -/
theorem findRecord_some (recordName : String) (l : List RecordEntry) (record : RecordEntry)
    (h : findRecord recordName l = some record) :
    ∃ pre post, l = pre ++ record :: post ∧
      (∀ e ∈ pre, ¬ (e.Name = recordName ∧ e.Type_ = "A")) ∧
      record.Name = recordName ∧ record.Type_ = "A" := by
  induction l with
  | nil => simp [findRecord] at h
  | cons x rest ih =>
    unfold findRecord at h
    by_cases hx : x.Name = recordName ∧ x.Type_ = "A"
    · rw [if_pos hx] at h
      cases h
      exact ⟨[], rest, rfl, by simp, hx.1, hx.2⟩
    · rw [if_neg hx] at h
      obtain ⟨pre, post, hl, hpre, hn, ht⟩ := ih h
      refine ⟨x :: pre, post, by simp [hl], ?_, hn, ht⟩
      intro e he
      rcases List.mem_cons.mp he with rfl | he
      · exact hx
      · exact hpre e he

/-- The loop finds nothing exactly when no entry passes its test. -/
theorem findRecord_eq_none (recordName : String) (l : List RecordEntry) :
    findRecord recordName l = none ↔ ∀ e ∈ l, ¬ (e.Name = recordName ∧ e.Type_ = "A") := by
  induction l with
  | nil => simp [findRecord]
  | cons x rest ih =>
    unfold findRecord
    by_cases hx : x.Name = recordName ∧ x.Type_ = "A"
    · rw [if_pos hx]
      simp only [List.mem_cons, forall_eq_or_imp]
      constructor
      · intro h; cases h
      · intro h; exact absurd hx h.1
    · rw [if_neg hx, ih]
      simp only [List.mem_cons, forall_eq_or_imp]
      exact ⟨fun h => ⟨hx, h⟩, fun h => h.2⟩

/-! ### The four ways a cycle ends -/

theorem sync_of_getRecord_error (env : Env) (a : app) (e : Err)
    (hg : (getRecord env a a.Cloudflare.Record).1 = .error e) :
    sync env a =
      { app := a, err := some (.getRecord e),
        trace := (getRecord env a a.Cloudflare.Record).2 } := by
  unfold sync
  rcases hgr : getRecord env a a.Cloudflare.Record with ⟨r, t⟩
  rw [hgr] at hg
  simp only at hg
  subst hg
  rfl

theorem sync_of_currentIP_error (env : Env) (a : app) (id c : String) (e : Err)
    (hg : (getRecord env a a.Cloudflare.Record).1 = .ok (id, c))
    (hc : (currentIP env).1 = .error e) :
    sync env a =
      { app := withRecordID a id, err := some (.getCurrentIP e),
        trace := (getRecord env a a.Cloudflare.Record).2 ++ (currentIP env).2 } := by
  unfold sync
  rcases hgr : getRecord env a a.Cloudflare.Record with ⟨r, t⟩
  rcases hcr : currentIP env with ⟨r2, t2⟩
  rw [hgr] at hg
  rw [hcr] at hc
  simp only at hg hc
  subst hg hc
  rfl

theorem sync_of_equal (env : Env) (a : app) (id c ip : String)
    (hg : (getRecord env a a.Cloudflare.Record).1 = .ok (id, c))
    (hc : (currentIP env).1 = .ok ip) (heq : c = ip) :
    sync env a =
      { app := withRecordID a id, err := none,
        trace := (getRecord env a a.Cloudflare.Record).2 ++ (currentIP env).2 } := by
  unfold sync
  rcases hgr : getRecord env a a.Cloudflare.Record with ⟨r, t⟩
  rcases hcr : currentIP env with ⟨r2, t2⟩
  rw [hgr] at hg
  rw [hcr] at hc
  simp only at hg hc
  subst hg hc
  simp [heq]

theorem sync_of_differ (env : Env) (a : app) (id c ip : String)
    (hg : (getRecord env a a.Cloudflare.Record).1 = .ok (id, c))
    (hc : (currentIP env).1 = .ok ip) (hne : c ≠ ip) :
    sync env a =
      { app := withRecordID a id,
        err := updateErr (updateDNSRecord env (withRecordID a id) ip).1,
        trace := (getRecord env a a.Cloudflare.Record).2 ++ (currentIP env).2 ++
          [.logUpdate (withRecordID a id).Cloudflare.Record c ip] ++
          (updateDNSRecord env (withRecordID a id) ip).2 } := by
  unfold sync
  rcases hgr : getRecord env a a.Cloudflare.Record with ⟨r, t⟩
  rcases hcr : currentIP env with ⟨r2, t2⟩
  rw [hgr] at hg
  rw [hcr] at hc
  simp only at hg hc
  subst hg hc
  rcases hur : updateDNSRecord env (withRecordID a id) ip with ⟨r3, t3⟩
  cases r3 <;> simp [hne, hur, updateErr]

/-- The assignment of main.go:87-89 touches the cached record id only. -/
theorem withRecordID_eq (a : app) (id : String) :
    withRecordID a id = { a with Cloudflare := { a.Cloudflare with RecordID := id } } := by
  unfold withRecordID
  by_cases h : a.Cloudflare.RecordID = id
  · simp only [ne_eq, h, not_true_eq_false, if_false]
    cases a with
    | mk cf i d => cases cf; simp_all
  · simp [h]

/-- The update request of a cycle is addressed to the configured zone and to
the record id resolved in that cycle, whatever id was cached before. -/
theorem updateRequest_withRecordID (a : app) (id newIP : String) :
    updateRequest (withRecordID a id) newIP =
      { method := "PUT",
        url := recordURL a.Cloudflare.ZoneID id,
        authorization := "Bearer " ++ a.Cloudflare.ApiToken,
        contentType := "application/json",
        body := some { type := "A", name := a.Cloudflare.Record, content := newIP } } := by
  rw [withRecordID_eq]; rfl

/-- What `updateDNSRecord` returns once the provider has answered with a
status. -/
theorem updateDNSRecord_of_response (env : Env) (b : app) (newIP : String) (status : Nat)
    (body : Option Unit)
    (hreq : env.newRequest "PUT" (recordURL b.Cloudflare.ZoneID b.Cloudflare.RecordID) = true)
    (hresp : env.doUpdate (updateRequest b newIP) = .response status body) :
    (updateDNSRecord env b newIP).1 =
      if status ≠ 200 then .error (.unexpectedStatus status) else .ok () := by
  unfold updateDNSRecord
  have hreq2 : env.newRequest "PUT" (updateRequest b newIP).url = true := hreq
  simp only [hreq2, hresp, if_true]
  split <;> rfl

/-- A cycle returns nil exactly when the lookup and the discovery succeeded and
the update, if the contents differ, succeeded. -/
theorem sync_nil_iff (env : Env) (a : app) :
    (sync env a).err = none ↔
      ∃ id c ip, (getRecord env a a.Cloudflare.Record).1 = .ok (id, c) ∧
        (currentIP env).1 = .ok ip ∧
        (c ≠ ip → (updateDNSRecord env (withRecordID a id) ip).1 = .ok ()) := by
  rcases hgr : (getRecord env a a.Cloudflare.Record).1 with e | ⟨id, c⟩
  · rw [sync_of_getRecord_error env a e hgr]
    simp
  · rcases hcr : (currentIP env).1 with e | ip
    · rw [sync_of_currentIP_error env a id c e hgr hcr]
      simp
    · by_cases hne : c = ip
      · rw [sync_of_equal env a id c ip hgr hcr hne]
        simp only [true_iff]
        exact ⟨id, c, ip, rfl, rfl, fun h => absurd hne h⟩
      · rw [sync_of_differ env a id c ip hgr hcr hne]
        rcases hur : (updateDNSRecord env (withRecordID a id) ip).1 with e | u
        · simp only [updateErr]
          constructor
          · intro h; cases h
          · rintro ⟨id2, c2, ip2, h1, h2, h3⟩
            cases h1; cases h2
            rw [hur] at h3
            exact absurd (h3 hne) (by simp)
        · simp only [updateErr, true_iff]
          exact ⟨id, c, ip, rfl, rfl, fun _ => hur⟩

/-! ### The provider as a store -/

theorem withRecordID_zone (a : app) (id : String) :
    (withRecordID a id).Cloudflare.ZoneID = a.Cloudflare.ZoneID := by
  rw [withRecordID_eq]

theorem withRecordID_record (a : app) (id : String) :
    (withRecordID a id).Cloudflare.Record = a.Cloudflare.Record := by
  rw [withRecordID_eq]

theorem withRecordID_recordID (a : app) (id : String) :
    (withRecordID a id).Cloudflare.RecordID = id := by
  rw [withRecordID_eq]

/-- The listing request does not depend on the cached record id. -/
theorem getRecord_withRecordID (env : Env) (a : app) (id recordName : String) :
    getRecord env (withRecordID a id) recordName = getRecord env a recordName := by
  have h : lookupRequest (withRecordID a id) recordName = lookupRequest a recordName := by
    rw [withRecordID_eq]; rfl
  unfold getRecord
  rw [h]

/-- Dropping entries of another name does not change what the loop finds. -/
theorem findRecord_filter (recordName : String) (p : RecordEntry → Bool)
    (hp : ∀ e, e.Name = recordName → p e = true) (l : List RecordEntry) :
    findRecord recordName (l.filter p) = findRecord recordName l := by
  induction l with
  | nil => rfl
  | cons x rest ih =>
    by_cases hx : x.Name = recordName ∧ x.Type_ = "A"
    · have hpx : p x = true := hp x hx.1
      simp [List.filter_cons, hpx, findRecord, hx]
    · by_cases hpx : p x = true
      · simp [List.filter_cons, hpx, findRecord, hx, ih]
      · simp [List.filter_cons, hpx, findRecord, hx, ih]

/-- Rewriting the entries without touching name or type does not change which
entry the loop finds. -/
theorem findRecord_map (recordName : String) (f : RecordEntry → RecordEntry)
    (hn : ∀ e, (f e).Name = e.Name) (ht : ∀ e, (f e).Type_ = e.Type_) (l : List RecordEntry) :
    findRecord recordName (l.map f) = (findRecord recordName l).map f := by
  induction l with
  | nil => rfl
  | cons x rest ih =>
    by_cases hx : x.Name = recordName ∧ x.Type_ = "A"
    · simp [findRecord, hn, ht, hx]
    · simp [findRecord, hn, ht, hx, ih]

/-- What `getRecord` returns against the provider holding `store`. -/
theorem getRecord_providerEnv (newRequest : String → String → Bool)
    (putAnswer : List RecordEntry → Request → HttpOutcome Unit)
    (discovery : HttpOutcome IPResponse) (store : List RecordEntry) (a : app)
    (recordName : String) :
    (getRecord (providerEnv newRequest putAnswer a.Cloudflare.ZoneID store discovery)
        a recordName).1 =
      if newRequest "GET" (lookupURL a.Cloudflare.ZoneID recordName) = true then
        match findRecord recordName store with
        | some record => .ok (record.ID, record.Content)
        | none => .error .recordNotFound
      else .error .createRequest := by
  by_cases hreq : newRequest "GET" (lookupURL a.Cloudflare.ZoneID recordName) = true
  · rw [if_pos hreq,
      getRecord_of_success (providerEnv newRequest putAnswer a.Cloudflare.ZoneID store discovery)
        a recordName
        { Success := true, Errors := [],
          Result := store.filter fun e =>
            lookupURL a.Cloudflare.ZoneID e.Name = (lookupRequest a recordName).url }
        hreq rfl rfl]
    simp only
    rw [findRecord_filter recordName _ _ store]
    intro e he
    simp [lookupRequest, he]
  · rw [if_neg hreq]
    unfold getRecord
    have hreq2 : (providerEnv newRequest putAnswer a.Cloudflare.ZoneID store discovery).newRequest
        "GET" (lookupRequest a recordName).url = false := by
      simpa using hreq
    simp [hreq2]

/-- A trace without update calls leaves the store as it is. -/
theorem storeAfter_of_no_update (putAnswer : List RecordEntry → Request → HttpOutcome Unit)
    (zoneID : String) (store : List RecordEntry) (trace : List Event)
    (h : updateCalls trace = []) : storeAfter putAnswer zoneID store trace = store := by
  induction trace generalizing store with
  | nil => rfl
  | cons ev rest ih =>
    cases ev with
    | send req =>
      by_cases hm : req.method = "PUT"
      · simp [updateCalls, hm] at h
      · simp only [updateCalls, hm, if_false] at h
        simp only [storeAfter, List.foldl_cons, providerStep, hm, if_false]
        exact ih store h
    | get url =>
      simp only [updateCalls] at h
      simp only [storeAfter, List.foldl_cons, providerStep]
      exact ih store h
    | logUpdate r c n =>
      simp only [updateCalls] at h
      simp only [storeAfter, List.foldl_cons, providerStep]
      exact ih store h

theorem storeAfter_append (putAnswer : List RecordEntry → Request → HttpOutcome Unit)
    (zoneID : String) (store : List RecordEntry) (t u : List Event) :
    storeAfter putAnswer zoneID store (t ++ u) =
      storeAfter putAnswer zoneID (storeAfter putAnswer zoneID store t) u := by
  simp [storeAfter, List.foldl_append]

/-- The discovery step does not depend on the provider's store. -/
theorem currentIP_providerEnv (newRequest : String → String → Bool)
    (putAnswer : List RecordEntry → Request → HttpOutcome Unit)
    (discovery : HttpOutcome IPResponse) (zoneID zoneID2 : String)
    (store store2 : List RecordEntry) :
    currentIP (providerEnv newRequest putAnswer zoneID store discovery) =
      currentIP (providerEnv newRequest putAnswer zoneID2 store2 discovery) := rfl

/-- When `updateDNSRecord` returns nil, the request was built and answered with
status 200. -/
theorem updateDNSRecord_ok (env : Env) (b : app) (newIP : String)
    (h : (updateDNSRecord env b newIP).1 = .ok ()) :
    env.newRequest "PUT" (recordURL b.Cloudflare.ZoneID b.Cloudflare.RecordID) = true ∧
    ∃ body, env.doUpdate (updateRequest b newIP) = .response 200 body := by
  by_cases hreq : env.newRequest "PUT" (recordURL b.Cloudflare.ZoneID b.Cloudflare.RecordID) = true
  · refine ⟨hreq, ?_⟩
    rcases hresp : env.doUpdate (updateRequest b newIP) with _ | ⟨status, body⟩
    · unfold updateDNSRecord at h
      have hreq2 : env.newRequest "PUT" (updateRequest b newIP).url = true := hreq
      simp [hreq2, hresp] at h
    · rw [updateDNSRecord_of_response env b newIP status body hreq hresp] at h
      by_cases hs : status = 200
      · subst hs; exact ⟨body, rfl⟩
      · simp [hs] at h
  · unfold updateDNSRecord at h
    have hreq2 : env.newRequest "PUT" (updateRequest b newIP).url = false := by
      simpa using hreq
    simp [hreq2] at h

/-! ## The claims -/

/-- C1, as amended: when the listing answer has status 200 and `success` true,
the first entry of its result list with the configured name and type "A" (the
one `getRecord` resolves) has content `c`, the discovery answer gives the
address `ip`, and `c = ip`, then `sync` sends no update request and returns
nil. -/
theorem sync_no_update_when_content_equal (env : Env) (a : app) (result : LookupResult)
    (record : RecordEntry) (ip : String)
    (hreq : env.newRequest "GET" (lookupURL a.Cloudflare.ZoneID a.Cloudflare.Record) = true)
    (hresp : env.doLookup (lookupRequest a a.Cloudflare.Record) = .response 200 (some result))
    (hok : result.Success = true)
    (hrec : findRecord a.Cloudflare.Record result.Result = some record)
    (hip : (currentIP env).1 = .ok ip)
    (heq : record.Content = ip) :
    updateCalls (sync env a).trace = [] ∧ (sync env a).err = none := by
  have hg : (getRecord env a a.Cloudflare.Record).1 = .ok (record.ID, record.Content) := by
    rw [getRecord_of_success env a _ result hreq hresp hok, hrec]
  rw [sync_of_equal env a record.ID record.Content ip hg hip heq]
  simp [updateCalls_append, getRecord_updateCalls, currentIP_updateCalls]

/-- Witness of C1 as amended: stored 10.0.0.1, discovered 10.0.0.1. -/
theorem sync_no_update_when_content_equal_witness :
    updateCalls
        (sync (fixedEnv (listing [⟨"r1", "home.example.com", "A", "10.0.0.1"⟩])
          (ipv4Only "10.0.0.1") (.response 200 none)) homeApp).trace = [] ∧
      (sync (fixedEnv (listing [⟨"r1", "home.example.com", "A", "10.0.0.1"⟩])
          (ipv4Only "10.0.0.1") (.response 200 none)) homeApp).err = none :=
  sync_no_update_when_content_equal _ homeApp
    { Success := true, Errors := [], Result := [⟨"r1", "home.example.com", "A", "10.0.0.1"⟩] }
    ⟨"r1", "home.example.com", "A", "10.0.0.1"⟩ "10.0.0.1"
    (by decide) rfl rfl (by decide) rfl rfl

/-- C1, as stated, fails: the listing answer (status 200, `success` true) holds
two entries with the configured name and type "A", the second with content
10.0.0.1, and 10.0.0.1 is discovered.  The answer contains a matching entry
whose content is the discovered address, yet the loop of main.go:205-209
resolves the first entry, with content 10.0.0.9, and `sync` sends one update
request, to the record "r1". -/
theorem sync_updates_when_later_match_equal :
    (∃ e ∈ [(⟨"r1", "home.example.com", "A", "10.0.0.9"⟩ : RecordEntry),
        ⟨"r2", "home.example.com", "A", "10.0.0.1"⟩],
      e.Name = homeApp.Cloudflare.Record ∧ e.Type_ = "A" ∧ e.Content = "10.0.0.1") ∧
    (currentIP (fixedEnv (listing [⟨"r1", "home.example.com", "A", "10.0.0.9"⟩,
        ⟨"r2", "home.example.com", "A", "10.0.0.1"⟩])
      (ipv4Only "10.0.0.1") (.response 200 none))).1 = .ok "10.0.0.1" ∧
    (getRecord (fixedEnv (listing [⟨"r1", "home.example.com", "A", "10.0.0.9"⟩,
        ⟨"r2", "home.example.com", "A", "10.0.0.1"⟩])
      (ipv4Only "10.0.0.1") (.response 200 none)) homeApp homeApp.Cloudflare.Record).1
      = .ok ("r1", "10.0.0.9") ∧
    updateCalls (sync (fixedEnv (listing [⟨"r1", "home.example.com", "A", "10.0.0.9"⟩,
        ⟨"r2", "home.example.com", "A", "10.0.0.1"⟩])
      (ipv4Only "10.0.0.1") (.response 200 none)) homeApp).trace
      = [{ method := "PUT",
           url := "https://api.cloudflare.com/client/v4/zones/zone1/dns_records/r1",
           authorization := "Bearer token",
           contentType := "application/json",
           body := some { type := "A", name := "home.example.com", content := "10.0.0.1" } }] ∧
    updateCalls (sync (fixedEnv (listing [⟨"r1", "home.example.com", "A", "10.0.0.9"⟩,
        ⟨"r2", "home.example.com", "A", "10.0.0.1"⟩])
      (ipv4Only "10.0.0.1") (.response 200 none)) homeApp).trace ≠ [] :=
  ⟨⟨⟨"r2", "home.example.com", "A", "10.0.0.1"⟩, by decide, by decide, by decide, by decide⟩,
    rfl, rfl, by decide, by decide⟩

/-- C3: on a decoded discovery answer, `currentIP` returns the `ipv4` value
whenever it is present, the `ipv6` value when `ipv4` is absent and `ipv6` is
present, and fails, with the no-address error, exactly when both are absent. -/
theorem currentIP_prefers_ipv4 (env : Env) (status : Nat) (response : IPResponse)
    (hresp : env.httpGet discoveryURL = .response status (some response)) :
    (∀ v4, response.IPv4 = some v4 → (currentIP env).1 = .ok v4) ∧
    (∀ v6, response.IPv4 = none → response.IPv6 = some v6 → (currentIP env).1 = .ok v6) ∧
    ((currentIP env).1 = .error .noIPAddress ↔ response.IPv4 = none ∧ response.IPv6 = none) ∧
    (∀ e, (currentIP env).1 = .error e → e = .noIPAddress) := by
  unfold currentIP
  rw [hresp]
  rcases response with ⟨v4, v6⟩
  cases v4 <;> cases v6 <;> simp

/-- Witness of C3: the three answers the specification lists. -/
theorem currentIP_prefers_ipv4_witness :
    (currentIP (fixedEnv .transportError (.response 200 (some ⟨some "1.2.3.4", none⟩))
        .transportError)).1 = .ok "1.2.3.4" ∧
    (currentIP (fixedEnv .transportError (.response 200 (some ⟨none, some "::1"⟩))
        .transportError)).1 = .ok "::1" ∧
    (currentIP (fixedEnv .transportError (.response 200 (some ⟨none, none⟩))
        .transportError)).1 = .error .noIPAddress :=
  ⟨(currentIP_prefers_ipv4 _ 200 ⟨some "1.2.3.4", none⟩ rfl).1 "1.2.3.4" rfl,
   (currentIP_prefers_ipv4 _ 200 ⟨none, some "::1"⟩ rfl).2.1 "::1" rfl rfl,
   (currentIP_prefers_ipv4 _ 200 ⟨none, none⟩ rfl).2.2.1.mpr ⟨rfl, rfl⟩⟩

/-- C4: when the listing answer has status 200 and `success` true and its
result list has at least one entry with the asked name and type "A",
`getRecord` returns the id and content of the first such entry in list order:
every entry before it fails the name or the type test. -/
theorem getRecord_first_match (env : Env) (a : app) (recordName : String)
    (result : LookupResult)
    (hreq : env.newRequest "GET" (lookupURL a.Cloudflare.ZoneID recordName) = true)
    (hresp : env.doLookup (lookupRequest a recordName) = .response 200 (some result))
    (hok : result.Success = true)
    (hex : ∃ e ∈ result.Result, e.Name = recordName ∧ e.Type_ = "A") :
    ∃ pre record post, result.Result = pre ++ record :: post ∧
      (∀ e ∈ pre, ¬ (e.Name = recordName ∧ e.Type_ = "A")) ∧
      record.Name = recordName ∧ record.Type_ = "A" ∧
      (getRecord env a recordName).1 = .ok (record.ID, record.Content) := by
  rw [getRecord_of_success env a recordName result hreq hresp hok]
  cases hf : findRecord recordName result.Result with
  | none =>
    obtain ⟨e, he, hm⟩ := hex
    exact absurd hm ((findRecord_eq_none recordName result.Result).mp hf e he)
  | some record =>
    obtain ⟨pre, post, hl, hpre, hn, ht⟩ := findRecord_some recordName result.Result record hf
    exact ⟨pre, record, post, hl, hpre, hn, ht, rfl⟩

/-- Witness of C4: two matching entries after an AAAA entry of the same name;
the first matching one is returned. -/
theorem getRecord_first_match_witness :
    ∃ pre record post,
      [(⟨"r0", "home.example.com", "AAAA", "::1"⟩ : RecordEntry),
        ⟨"r1", "home.example.com", "A", "10.0.0.1"⟩,
        ⟨"r2", "home.example.com", "A", "10.0.0.9"⟩] = pre ++ record :: post ∧
      (∀ e ∈ pre, ¬ (e.Name = "home.example.com" ∧ e.Type_ = "A")) ∧
      record.Name = "home.example.com" ∧ record.Type_ = "A" ∧
      (getRecord
        (fixedEnv (listing [⟨"r0", "home.example.com", "AAAA", "::1"⟩,
          ⟨"r1", "home.example.com", "A", "10.0.0.1"⟩,
          ⟨"r2", "home.example.com", "A", "10.0.0.9"⟩]) .transportError .transportError)
        homeApp "home.example.com").1 = .ok (record.ID, record.Content) ∧
      (record.ID, record.Content) = ("r1", "10.0.0.1") := by
  obtain ⟨pre, record, post, hl, hpre, hn, ht, hg⟩ :=
    getRecord_first_match
      (fixedEnv (listing [⟨"r0", "home.example.com", "AAAA", "::1"⟩,
        ⟨"r1", "home.example.com", "A", "10.0.0.1"⟩,
        ⟨"r2", "home.example.com", "A", "10.0.0.9"⟩]) .transportError .transportError)
      homeApp "home.example.com"
      { Success := true, Errors := [],
        Result := [⟨"r0", "home.example.com", "AAAA", "::1"⟩,
          ⟨"r1", "home.example.com", "A", "10.0.0.1"⟩,
          ⟨"r2", "home.example.com", "A", "10.0.0.9"⟩] }
      (by decide) rfl rfl ⟨⟨"r1", "home.example.com", "A", "10.0.0.1"⟩, by decide, by decide⟩
  refine ⟨pre, record, post, hl, hpre, hn, ht, hg, ?_⟩
  have hr : (getRecord
      (fixedEnv (listing [⟨"r0", "home.example.com", "AAAA", "::1"⟩,
        ⟨"r1", "home.example.com", "A", "10.0.0.1"⟩,
        ⟨"r2", "home.example.com", "A", "10.0.0.9"⟩]) .transportError .transportError)
      homeApp "home.example.com").1 = .ok ("r1", "10.0.0.1") := rfl
  rw [hr] at hg
  exact (Except.ok.inj hg).symm

/-- C5: when the listing answer has status 200 and `success` true, `getRecord`
fails with the record-not-found error if and only if no entry of the result
list has both the asked name and type "A"; in that case `sync`, which asks for
the configured record name, returns that failure. -/
theorem getRecord_not_found_iff (env : Env) (a : app) (recordName : String)
    (result : LookupResult)
    (hreq : env.newRequest "GET" (lookupURL a.Cloudflare.ZoneID recordName) = true)
    (hresp : env.doLookup (lookupRequest a recordName) = .response 200 (some result))
    (hok : result.Success = true) :
    ((getRecord env a recordName).1 = .error .recordNotFound ↔
      ∀ e ∈ result.Result, ¬ (e.Name = recordName ∧ e.Type_ = "A")) ∧
    (recordName = a.Cloudflare.Record →
      (∀ e ∈ result.Result, ¬ (e.Name = recordName ∧ e.Type_ = "A")) →
      (sync env a).err = some (.getRecord .recordNotFound)) := by
  have hiff : (getRecord env a recordName).1 = .error .recordNotFound ↔
      ∀ e ∈ result.Result, ¬ (e.Name = recordName ∧ e.Type_ = "A") := by
    rw [getRecord_of_success env a recordName result hreq hresp hok,
      ← findRecord_eq_none recordName result.Result]
    cases findRecord recordName result.Result <;> simp
  refine ⟨hiff, ?_⟩
  intro hname hnone
  subst hname
  rw [sync_of_getRecord_error env a .recordNotFound (hiff.mpr hnone)]

/-- Witness of C5: the only entry with the configured name has type AAAA. -/
theorem getRecord_not_found_iff_witness :
    (getRecord
      (fixedEnv (listing [⟨"r0", "home.example.com", "AAAA", "::1"⟩,
        ⟨"r7", "other.example.com", "A", "10.0.0.1"⟩]) (ipv4Only "10.0.0.2") (.response 200 none))
      homeApp "home.example.com").1 = .error .recordNotFound ∧
    (sync
      (fixedEnv (listing [⟨"r0", "home.example.com", "AAAA", "::1"⟩,
        ⟨"r7", "other.example.com", "A", "10.0.0.1"⟩]) (ipv4Only "10.0.0.2") (.response 200 none))
      homeApp).err = some (.getRecord .recordNotFound) :=
  have h := getRecord_not_found_iff
    (fixedEnv (listing [⟨"r0", "home.example.com", "AAAA", "::1"⟩,
      ⟨"r7", "other.example.com", "A", "10.0.0.1"⟩]) (ipv4Only "10.0.0.2") (.response 200 none))
    homeApp "home.example.com"
    { Success := true, Errors := [],
      Result := [⟨"r0", "home.example.com", "AAAA", "::1"⟩,
        ⟨"r7", "other.example.com", "A", "10.0.0.1"⟩] }
    (by decide) rfl rfl
  ⟨h.1.mpr (by decide), h.2 rfl (by decide)⟩

/-- C6: when the listing answer carries `success` false, `getRecord` returns a
provider error and no record, whatever the result list holds: the api error
with the answer's messages on status 200, the status error otherwise.  `sync`
then returns that failure and sends no update request. -/
theorem getRecord_unsuccessful (env : Env) (a : app) (recordName : String) (status : Nat)
    (result : LookupResult)
    (hreq : env.newRequest "GET" (lookupURL a.Cloudflare.ZoneID recordName) = true)
    (hresp : env.doLookup (lookupRequest a recordName) = .response status (some result))
    (hfail : result.Success = false) :
    ∃ e, (getRecord env a recordName).1 = .error e ∧ e.kind = .ProviderError ∧
      (status = 200 → e = .apiError result.Errors) ∧
      (recordName = a.Cloudflare.Record →
        (sync env a).err = some (.getRecord e) ∧ updateCalls (sync env a).trace = [] ∧
        discoveryCalls (sync env a).trace = []) := by
  have hreq2 : env.newRequest "GET" (lookupRequest a recordName).url = true := hreq
  have key : ∃ e, (getRecord env a recordName).1 = .error e ∧ e.kind = .ProviderError ∧
      (status = 200 → e = .apiError result.Errors) := by
    by_cases hs : status = 200
    · refine ⟨.apiError result.Errors, ?_, rfl, fun _ => rfl⟩
      unfold getRecord
      simp [hreq2, hresp, hfail, hs]
    · refine ⟨.unexpectedStatus status, ?_, rfl, fun h => absurd h hs⟩
      unfold getRecord
      simp [hreq2, hresp, hs]
  obtain ⟨e, hg, hk, h200⟩ := key
  refine ⟨e, hg, hk, h200, ?_⟩
  intro hname
  subst hname
  rw [sync_of_getRecord_error env a e hg]
  exact ⟨rfl, getRecord_updateCalls env a _, getRecord_discoveryCalls env a _⟩

/-- Witness of C6: `success` false on status 200 with a matching entry in the
result list, whose content differs from the discovered address. -/
theorem getRecord_unsuccessful_witness :
    ∃ e, (getRecord
        (fixedEnv (.response 200 (some ⟨false, ["bad token"],
          [⟨"r1", "home.example.com", "A", "10.0.0.1"⟩]⟩)) (ipv4Only "10.0.0.2")
          (.response 200 none)) homeApp "home.example.com").1 = .error e ∧
      e.kind = .ProviderError ∧ ((200 : Nat) = 200 → e = .apiError ["bad token"]) ∧
      ("home.example.com" = homeApp.Cloudflare.Record →
        (sync (fixedEnv (.response 200 (some ⟨false, ["bad token"],
          [⟨"r1", "home.example.com", "A", "10.0.0.1"⟩]⟩)) (ipv4Only "10.0.0.2")
          (.response 200 none)) homeApp).err = some (.getRecord e) ∧
        updateCalls (sync (fixedEnv (.response 200 (some ⟨false, ["bad token"],
          [⟨"r1", "home.example.com", "A", "10.0.0.1"⟩]⟩)) (ipv4Only "10.0.0.2")
          (.response 200 none)) homeApp).trace = [] ∧
        discoveryCalls (sync (fixedEnv (.response 200 (some ⟨false, ["bad token"],
          [⟨"r1", "home.example.com", "A", "10.0.0.1"⟩]⟩)) (ipv4Only "10.0.0.2")
          (.response 200 none)) homeApp).trace = []) :=
  getRecord_unsuccessful _ homeApp "home.example.com" 200
    ⟨false, ["bad token"], [⟨"r1", "home.example.com", "A", "10.0.0.1"⟩]⟩ (by decide) rfl rfl

/-- C2, as amended: when the lookup resolves `(id, c)`, discovery gives `ip`
with `c ≠ ip`, and the request constructor accepts the update URL built from
the configured zone and `id`, then `sync` sends exactly one update request: a
PUT to the record URL of the configured zone and of `id` (not of the id cached
before), with body type "A", the configured record name and content `ip`; and
`sync` returns nil when that request is answered with status 200. -/
theorem sync_one_update_when_content_differs (env : Env) (a : app) (id c ip : String)
    (hg : (getRecord env a a.Cloudflare.Record).1 = .ok (id, c))
    (hip : (currentIP env).1 = .ok ip) (hne : c ≠ ip)
    (hput : env.newRequest "PUT" (recordURL a.Cloudflare.ZoneID id) = true) :
    updateCalls (sync env a).trace =
      [{ method := "PUT",
         url := recordURL a.Cloudflare.ZoneID id,
         authorization := "Bearer " ++ a.Cloudflare.ApiToken,
         contentType := "application/json",
         body := some { type := "A", name := a.Cloudflare.Record, content := ip } }] ∧
    (∀ body,
      env.doUpdate
        { method := "PUT",
          url := recordURL a.Cloudflare.ZoneID id,
          authorization := "Bearer " ++ a.Cloudflare.ApiToken,
          contentType := "application/json",
          body := some { type := "A", name := a.Cloudflare.Record, content := ip } }
        = .response 200 body →
      (sync env a).err = none) := by
  have hzone : (withRecordID a id).Cloudflare.ZoneID = a.Cloudflare.ZoneID := by
    rw [withRecordID_eq]
  have hid : (withRecordID a id).Cloudflare.RecordID = id := by
    rw [withRecordID_eq]
  have hput2 : env.newRequest "PUT"
      (recordURL (withRecordID a id).Cloudflare.ZoneID (withRecordID a id).Cloudflare.RecordID)
      = true := by
    rw [hzone, hid]; exact hput
  rw [sync_of_differ env a id c ip hg hip hne]
  refine ⟨?_, ?_⟩
  · simp only [updateCalls_append, getRecord_updateCalls, currentIP_updateCalls,
      updateDNSRecord_trace, hput2, if_true, updateCalls_updateRequest]
    rw [updateRequest_withRecordID]
    rfl
  · intro body hresp
    rw [← updateRequest_withRecordID] at hresp
    rw [updateDNSRecord_of_response env (withRecordID a id) ip 200 body hput2 hresp]
    rfl

/-- Witness of C2 as amended: stored 10.0.0.1 under id "r1", discovered
10.0.0.2, a stale id in the cache, the update answered with 200: one PUT to
".../dns_records/r1" with content 10.0.0.2, and nil. -/
theorem sync_one_update_when_content_differs_witness :
    updateCalls
      (sync (fixedEnv (listing [⟨"r1", "home.example.com", "A", "10.0.0.1"⟩])
        (ipv4Only "10.0.0.2") (.response 200 none)) staleApp).trace =
      [{ method := "PUT",
         url := "https://api.cloudflare.com/client/v4/zones/zone1/dns_records/r1",
         authorization := "Bearer token",
         contentType := "application/json",
         body := some { type := "A", name := "home.example.com", content := "10.0.0.2" } }] ∧
    (sync (fixedEnv (listing [⟨"r1", "home.example.com", "A", "10.0.0.1"⟩])
        (ipv4Only "10.0.0.2") (.response 200 none)) staleApp).err = none :=
  have h := sync_one_update_when_content_differs
    (fixedEnv (listing [⟨"r1", "home.example.com", "A", "10.0.0.1"⟩])
      (ipv4Only "10.0.0.2") (.response 200 none)) staleApp "r1" "10.0.0.1" "10.0.0.2"
    rfl rfl (by decide) (by decide)
  ⟨h.1, h.2 none rfl⟩

/-- C2, as stated, fails: the provider lists the record under an id that ends
in a line feed, the stored content 10.0.0.1 differs from the discovered
10.0.0.2, the request constructor refuses the update URL, and `sync` sends no
update request and returns the create-request failure. -/
theorem sync_update_request_not_built :
    (getRecord (fixedEnv (listing [⟨"r1\n", "home.example.com", "A", "10.0.0.1"⟩])
      (ipv4Only "10.0.0.2") (.response 200 none)) homeApp homeApp.Cloudflare.Record).1
      = .ok ("r1\n", "10.0.0.1") ∧
    (currentIP (fixedEnv (listing [⟨"r1\n", "home.example.com", "A", "10.0.0.1"⟩])
      (ipv4Only "10.0.0.2") (.response 200 none))).1 = .ok "10.0.0.2" ∧
    "10.0.0.1" ≠ "10.0.0.2" ∧
    (updateCalls (sync (fixedEnv (listing [⟨"r1\n", "home.example.com", "A", "10.0.0.1"⟩])
      (ipv4Only "10.0.0.2") (.response 200 none)) homeApp).trace).length ≠ 1 ∧
    updateCalls (sync (fixedEnv (listing [⟨"r1\n", "home.example.com", "A", "10.0.0.1"⟩])
      (ipv4Only "10.0.0.2") (.response 200 none)) homeApp).trace = [] ∧
    (sync (fixedEnv (listing [⟨"r1\n", "home.example.com", "A", "10.0.0.1"⟩])
      (ipv4Only "10.0.0.2") (.response 200 none)) homeApp).err
      = some (.updateRecord .createRequest) :=
  ⟨rfl, rfl, by decide, by decide, by decide, by decide⟩

/-- C7: when the update request is answered with a status, `updateDNSRecord`
succeeds if and only if the status is exactly 200, and returns the status
error, a provider error, otherwise.  In a cycle that reaches the update, `sync`
has then sent exactly one update request, and returns failure on every status
other than 200. -/
theorem updateDNSRecord_status (env : Env) (b : app) (newIP : String) (status : Nat)
    (body : Option Unit)
    (hreq : env.newRequest "PUT" (recordURL b.Cloudflare.ZoneID b.Cloudflare.RecordID) = true)
    (hresp : env.doUpdate (updateRequest b newIP) = .response status body) :
    ((updateDNSRecord env b newIP).1 = .ok () ↔ status = 200) ∧
    (status ≠ 200 →
      (updateDNSRecord env b newIP).1 = .error (.unexpectedStatus status) ∧
      (Err.unexpectedStatus status).kind = .ProviderError) ∧
    (∀ a id c, withRecordID a id = b →
      (getRecord env a a.Cloudflare.Record).1 = .ok (id, c) →
      (currentIP env).1 = .ok newIP → c ≠ newIP →
      updateCalls (sync env a).trace = [updateRequest b newIP] ∧
      ((sync env a).err = none ↔ status = 200) ∧
      (status ≠ 200 → (sync env a).err = some (.updateRecord (.unexpectedStatus status)))) := by
  have hu := updateDNSRecord_of_response env b newIP status body hreq hresp
  refine ⟨?_, ?_, ?_⟩
  · rw [hu]
    by_cases hs : status = 200 <;> simp [hs]
  · intro hs
    rw [hu]
    simp [hs, Err.kind]
  · intro a id c hb hg hip hne
    subst hb
    rw [sync_of_differ env a id c newIP hg hip hne, hu]
    refine ⟨?_, ?_, ?_⟩
    · simp only [updateCalls_append, getRecord_updateCalls, currentIP_updateCalls,
        updateDNSRecord_trace, hreq, if_true, updateCalls_updateRequest]
      rfl
    · by_cases hs : status = 200 <;> simp [hs, updateErr]
    · intro hs
      simp [hs, updateErr]

/-- Witness of C7: stored 10.0.0.1, discovered 10.0.0.2, the update answers
500. -/
theorem updateDNSRecord_status_witness :
    (updateDNSRecord
      (fixedEnv (listing [⟨"r1", "home.example.com", "A", "10.0.0.1"⟩]) (ipv4Only "10.0.0.2")
        (.response 500 none)) (withRecordID homeApp "r1") "10.0.0.2").1
      = .error (.unexpectedStatus 500) ∧
    updateCalls
      (sync (fixedEnv (listing [⟨"r1", "home.example.com", "A", "10.0.0.1"⟩])
        (ipv4Only "10.0.0.2") (.response 500 none)) homeApp).trace
      = [updateRequest (withRecordID homeApp "r1") "10.0.0.2"] ∧
    (sync (fixedEnv (listing [⟨"r1", "home.example.com", "A", "10.0.0.1"⟩])
        (ipv4Only "10.0.0.2") (.response 500 none)) homeApp).err
      = some (.updateRecord (.unexpectedStatus 500)) :=
  have h := updateDNSRecord_status
    (fixedEnv (listing [⟨"r1", "home.example.com", "A", "10.0.0.1"⟩]) (ipv4Only "10.0.0.2")
      (.response 500 none)) (withRecordID homeApp "r1") "10.0.0.2" 500 none (by decide) rfl
  have hs := h.2.2 homeApp "r1" "10.0.0.1" rfl rfl rfl (by decide)
  ⟨(h.2.1 (by decide)).1, hs.1, hs.2.2 (by decide)⟩

/-- C8: a failing step ends the cycle and its error is returned.  If the record
lookup fails, `sync` returns that error and makes no discovery call and no
update call; if discovery fails, `sync` returns that error and makes no update
call; if the update fails, `sync` returns that error; and `sync` returns nil
exactly when the lookup and the discovery succeeded and the update, if the
contents differ, succeeded. -/
theorem sync_aborts_on_failure (env : Env) (a : app) :
    (∀ e, (getRecord env a a.Cloudflare.Record).1 = .error e →
      (sync env a).err = some (.getRecord e) ∧
      discoveryCalls (sync env a).trace = [] ∧ updateCalls (sync env a).trace = []) ∧
    (∀ id c e, (getRecord env a a.Cloudflare.Record).1 = .ok (id, c) →
      (currentIP env).1 = .error e →
      (sync env a).err = some (.getCurrentIP e) ∧ updateCalls (sync env a).trace = []) ∧
    (∀ id c ip e, (getRecord env a a.Cloudflare.Record).1 = .ok (id, c) →
      (currentIP env).1 = .ok ip → c ≠ ip →
      (updateDNSRecord env (withRecordID a id) ip).1 = .error e →
      (sync env a).err = some (.updateRecord e)) ∧
    ((sync env a).err = none ↔
      ∃ id c ip, (getRecord env a a.Cloudflare.Record).1 = .ok (id, c) ∧
        (currentIP env).1 = .ok ip ∧
        (c ≠ ip → (updateDNSRecord env (withRecordID a id) ip).1 = .ok ())) := by
  refine ⟨?_, ?_, ?_, ?_⟩
  · intro e hg
    rw [sync_of_getRecord_error env a e hg]
    exact ⟨rfl, getRecord_discoveryCalls env a _, getRecord_updateCalls env a _⟩
  · intro id c e hg hc
    rw [sync_of_currentIP_error env a id c e hg hc]
    refine ⟨rfl, ?_⟩
    simp [updateCalls_append, getRecord_updateCalls, currentIP_updateCalls]
  · intro id c ip e hg hc hne hu
    rw [sync_of_differ env a id c ip hg hc hne, hu]
    rfl
  · exact sync_nil_iff env a

/-- C10: for a parsed configuration, `main` exits with status 1 without having
run a cycle if and only if the API token, the zone id or the record name is the
empty string; otherwise it runs the first cycle on that configuration.  The
interval and the debug flag have no part in it: changing them changes neither
whether `main` is turned away before the first cycle nor that it exits with
status 1 when it is. -/
theorem main_rejects_iff (env : Env) (application : app) :
    (((main env (.ok application)).outcome = .exit 1 ∧
        (main env (.ok application)).firstSync = none) ↔
      (application.Cloudflare.ApiToken = "" ∨ application.Cloudflare.ZoneID = "" ∨
        application.Cloudflare.Record = "")) ∧
    (¬ (application.Cloudflare.ApiToken = "" ∨ application.Cloudflare.ZoneID = "" ∨
        application.Cloudflare.Record = "") →
      (main env (.ok application)).firstSync = some (sync env application)) ∧
    (∀ interval debug,
      ((main env (.ok { application with Interval := interval, Debug := debug })).outcome
          = .exit 1 ∧
        (main env (.ok { application with Interval := interval, Debug := debug })).firstSync
          = none) ↔
      ((main env (.ok application)).outcome = .exit 1 ∧
        (main env (.ok application)).firstSync = none)) := by
  have key : ∀ b : app,
      (((main env (.ok b)).outcome = .exit 1 ∧ (main env (.ok b)).firstSync = none) ↔
        (b.Cloudflare.ApiToken = "" ∨ b.Cloudflare.ZoneID = "" ∨ b.Cloudflare.Record = "")) ∧
      (¬ (b.Cloudflare.ApiToken = "" ∨ b.Cloudflare.ZoneID = "" ∨ b.Cloudflare.Record = "") →
        (main env (.ok b)).firstSync = some (sync env b)) := by
    intro b
    by_cases h : b.Cloudflare.ApiToken = "" ∨ b.Cloudflare.ZoneID = "" ∨ b.Cloudflare.Record = ""
    · refine ⟨⟨fun _ => h, fun _ => ?_⟩, fun hn => absurd h hn⟩
      simp [main, h]
    · refine ⟨⟨fun hm => ?_, fun hh => absurd hh h⟩, fun _ => ?_⟩
      · exfalso
        have hf := hm.2
        unfold main at hf
        simp only [h, if_false] at hf
        cases hsync : (sync env b).err <;> simp [hsync] at hf
      · unfold main
        simp only [h, if_false]
        cases hsync : (sync env b).err <;> simp
  refine ⟨(key application).1, (key application).2, ?_⟩
  intro interval debug
  rw [(key application).1, (key _).1]

/-- C9: against a provider that stores the records and, on an update it
answers with status 200, sets the addressed record's content to the content
sent: for every initial store and discovery answer, after a cycle that returned
nil, a second cycle with the same discovery answer sends no update request,
leaves the store as the first cycle left it, and returns nil. -/
theorem sync_idempotent (newRequest : String → String → Bool)
    (putAnswer : List RecordEntry → Request → HttpOutcome Unit)
    (discovery : HttpOutcome IPResponse) (store : List RecordEntry) (a : app)
    (hfirst : (providerCycle newRequest putAnswer discovery (a, store)).1.err = none) :
    updateCalls (providerCycle newRequest putAnswer discovery
        ((providerCycle newRequest putAnswer discovery (a, store)).1.app,
          (providerCycle newRequest putAnswer discovery (a, store)).2)).1.trace = [] ∧
    (providerCycle newRequest putAnswer discovery
        ((providerCycle newRequest putAnswer discovery (a, store)).1.app,
          (providerCycle newRequest putAnswer discovery (a, store)).2)).2 =
      (providerCycle newRequest putAnswer discovery (a, store)).2 ∧
    (providerCycle newRequest putAnswer discovery
        ((providerCycle newRequest putAnswer discovery (a, store)).1.app,
          (providerCycle newRequest putAnswer discovery (a, store)).2)).1.err = none := by
  -- the first cycle
  have hfirst2 : (sync (providerEnv newRequest putAnswer a.Cloudflare.ZoneID store discovery)
      a).err = none := hfirst
  obtain ⟨id, c, ip, hg, hc, hu⟩ := (sync_nil_iff _ a).mp hfirst2
  have hg2 := hg
  rw [getRecord_providerEnv] at hg2
  have hreq : newRequest "GET" (lookupURL a.Cloudflare.ZoneID a.Cloudflare.Record) = true := by
    by_contra hn
    rw [if_neg hn] at hg2
    cases hg2
  rw [if_pos hreq] at hg2
  -- a second cycle that resolves the discovered address sends nothing
  have second : ∀ store1 : List RecordEntry,
      (∃ e, findRecord a.Cloudflare.Record store1 = some e ∧ e.Content = ip) →
      updateCalls (providerCycle newRequest putAnswer discovery
          (withRecordID a id, store1)).1.trace = [] ∧
      (providerCycle newRequest putAnswer discovery (withRecordID a id, store1)).2 = store1 ∧
      (providerCycle newRequest putAnswer discovery (withRecordID a id, store1)).1.err
        = none := by
    rintro store1 ⟨e, he, hce⟩
    have hg3 : (getRecord
        (providerEnv newRequest putAnswer (withRecordID a id).Cloudflare.ZoneID store1 discovery)
        (withRecordID a id) (withRecordID a id).Cloudflare.Record).1 = .ok (e.ID, e.Content) := by
      rw [withRecordID_zone, withRecordID_record, getRecord_withRecordID,
        getRecord_providerEnv, if_pos hreq, he]
    have hc3 : (currentIP
        (providerEnv newRequest putAnswer (withRecordID a id).Cloudflare.ZoneID store1
          discovery)).1 = .ok ip := by
      rw [currentIP_providerEnv newRequest putAnswer discovery _ a.Cloudflare.ZoneID store1 store]
      exact hc
    have hs := sync_of_equal _ (withRecordID a id) e.ID e.Content ip hg3 hc3 hce
    have hcalls : updateCalls (providerCycle newRequest putAnswer discovery
        (withRecordID a id, store1)).1.trace = [] := by
      simp only [providerCycle]
      rw [hs]
      simp [updateCalls_append, getRecord_updateCalls, currentIP_updateCalls]
    refine ⟨hcalls, ?_, ?_⟩
    · exact storeAfter_of_no_update putAnswer _ store1 _ hcalls
    · simp only [providerCycle]
      rw [hs]
  cases hf : findRecord a.Cloudflare.Record store with
  | none => rw [hf] at hg2; cases hg2
  | some e =>
    rw [hf] at hg2
    have hid : e.ID = id := by cases hg2; rfl
    have hcont : e.Content = c := by cases hg2; rfl
    by_cases hne : c = ip
    · -- nothing to update in the first cycle
      have hs := sync_of_equal _ a id c ip hg hc hne
      have hcalls : updateCalls (sync
          (providerEnv newRequest putAnswer a.Cloudflare.ZoneID store discovery) a).trace
          = [] := by
        rw [hs]
        simp [updateCalls_append, getRecord_updateCalls, currentIP_updateCalls]
      have hstore : (providerCycle newRequest putAnswer discovery (a, store)).2 = store :=
        storeAfter_of_no_update putAnswer _ store _ hcalls
      have happ : (providerCycle newRequest putAnswer discovery (a, store)).1.app
          = withRecordID a id := by
        simp only [providerCycle]
        rw [hs]
      rw [hstore, happ]
      exact second store ⟨e, hf, hcont.trans hne⟩
    · -- the first cycle updated the record
      have hs := sync_of_differ _ a id c ip hg hc hne
      obtain ⟨hput, body, hresp⟩ := updateDNSRecord_ok _ _ _ (hu hne)
      have hresp2 : putAnswer store (updateRequest (withRecordID a id) ip)
          = .response 200 body := hresp
      have happ : (providerCycle newRequest putAnswer discovery (a, store)).1.app
          = withRecordID a id := by
        simp only [providerCycle]
        rw [hs]
      have hstore : (providerCycle newRequest putAnswer discovery (a, store)).2
          = applyUpdate a.Cloudflare.ZoneID store (updateRequest (withRecordID a id) ip) := by
        simp only [providerCycle]
        rw [hs]
        simp only [storeAfter_append, updateDNSRecord_trace, hput, if_true]
        have hpre : ∀ t, updateCalls t = [] →
            storeAfter putAnswer a.Cloudflare.ZoneID store t = store :=
          fun t ht => storeAfter_of_no_update putAnswer _ store t ht
        rw [hpre _ (getRecord_updateCalls _ a _), hpre _ (currentIP_updateCalls _),
          hpre [Event.logUpdate (withRecordID a id).Cloudflare.Record c ip] rfl]
        have hm : (updateRequest (withRecordID a id) ip).method = "PUT" := rfl
        simp [storeAfter, providerStep, hm, hresp2]
      rw [hstore, happ]
      apply second
      refine ⟨{ e with Content := ip }, ?_, rfl⟩
      unfold applyUpdate
      rw [updateRequest_withRecordID]
      simp only
      rw [findRecord_map a.Cloudflare.Record _ _ _ store, hf]
      · simp [hid]
      · intro x; split <;> rfl
      · intro x; split <;> rfl

/-- Witness of C9: the store holds 10.0.0.1 and 10.0.0.2 is discovered.  The
first cycle returns nil and leaves 10.0.0.2 in the store; the second sends no
update request and leaves the store as it is. -/
theorem sync_idempotent_witness :
    (providerCycle (fun _ url => !hasCTLByte url) alwaysOK (ipv4Only "10.0.0.2")
        (homeApp, [⟨"r1", "home.example.com", "A", "10.0.0.1"⟩])).2
      = [⟨"r1", "home.example.com", "A", "10.0.0.2"⟩] ∧
    updateCalls (providerCycle (fun _ url => !hasCTLByte url) alwaysOK (ipv4Only "10.0.0.2")
        ((providerCycle (fun _ url => !hasCTLByte url) alwaysOK (ipv4Only "10.0.0.2")
            (homeApp, [⟨"r1", "home.example.com", "A", "10.0.0.1"⟩])).1.app,
          (providerCycle (fun _ url => !hasCTLByte url) alwaysOK (ipv4Only "10.0.0.2")
            (homeApp, [⟨"r1", "home.example.com", "A", "10.0.0.1"⟩])).2)).1.trace = [] ∧
    (providerCycle (fun _ url => !hasCTLByte url) alwaysOK (ipv4Only "10.0.0.2")
        ((providerCycle (fun _ url => !hasCTLByte url) alwaysOK (ipv4Only "10.0.0.2")
            (homeApp, [⟨"r1", "home.example.com", "A", "10.0.0.1"⟩])).1.app,
          (providerCycle (fun _ url => !hasCTLByte url) alwaysOK (ipv4Only "10.0.0.2")
            (homeApp, [⟨"r1", "home.example.com", "A", "10.0.0.1"⟩])).2)).2
      = (providerCycle (fun _ url => !hasCTLByte url) alwaysOK (ipv4Only "10.0.0.2")
            (homeApp, [⟨"r1", "home.example.com", "A", "10.0.0.1"⟩])).2 :=
  have h := sync_idempotent (fun _ url => !hasCTLByte url) alwaysOK (ipv4Only "10.0.0.2")
    [⟨"r1", "home.example.com", "A", "10.0.0.1"⟩] homeApp (by decide)
  ⟨by decide, h.1, h.2.1⟩

end IpSync
